import Mathlib

/-!
Verification of the network subsystem of the rb3e-stagekit-networked
firmware: a shallow embedding in Lean 4 of the RB3E StageKit packet
decoder, the UDP command and telemetry/discovery handlers, the DHCP
lease allocator and server receive path, the WiFi connect polling loop,
the caller-level retry policy, and the telemetry destination selection.

Byte buffers are modelled as `List Nat` (each element a byte value),
32-bit quantities as `Nat`, and signed time differences as `Int`.
-/

/-! ## RB3E protocol codec (src/firmware/src/rb3e_protocol.h) -/

/-- The four RB3E magic bytes: ASCII R, B, 3, E. -/
def rb3eMagicBytes : List Nat := [82, 66, 51, 69]

/-- `rb3e_check_magic` from rb3e_protocol.h: checks the four magic bytes
at offsets 0..3. -/
def rb3e_check_magic (data : List Nat) : Bool :=
  data.getD 0 0 == 82 && data.getD 1 0 == 66 &&
  data.getD 2 0 == 51 && data.getD 3 0 == 69

/-- `rb3e_parse_stagekit` from rb3e_protocol.h: requires at least 10
bytes, the magic, and packet type 6 (STAGEKIT) at offset 5; on success
yields the bytes at offsets 8 and 9 (left and right channel). -/
def rb3e_parse_stagekit (data : List Nat) : Option (Nat × Nat) :=
  if data.length < 10 then none
  else if !rb3e_check_magic data then none
  else if data.getD 5 0 != 6 then none
  else some (data.getD 8 0, data.getD 9 0)

/-! ## Network statistics and the command-endpoint handler
(src/firmware/src/network.c) -/

/-- The statistics counters of `network_stats_t`, including the
`discovery_received` counter used by network.c. -/
structure NetStats where
  packets_received : Nat
  packets_processed : Nat
  packets_invalid : Nat
  telemetry_sent : Nat
  discovery_received : Nat
  deriving Repr, DecidableEq

/-- `udp_stagekit_callback` from network.c (non-null pbuf case): always
increments `packets_received`; when a packet callback is registered and
the payload is at least 10 bytes, parses the packet, incrementing
`packets_processed` (and invoking the callback, returned as `some`)
on success, or `packets_invalid` on failure.  Returns the updated
statistics and the callback invocation, if any. -/
def udp_stagekit_callback (cbSet : Bool) (payload : List Nat)
    (s : NetStats) : NetStats × Option (Nat × Nat) :=
  let s1 := { s with packets_received := s.packets_received + 1 }
  if cbSet && decide (10 ≤ payload.length) then
    match rb3e_parse_stagekit payload with
    | some (l, r) =>
        ({ s1 with packets_processed := s1.packets_processed + 1 }, some (l, r))
    | none =>
        ({ s1 with packets_invalid := s1.packets_invalid + 1 }, none)
  else
    (s1, none)

/-! ## DHCP server (src/firmware/src/dhcpserver.c, dhcpserver.h) -/

/-- A DHCP lease table entry: a 6-byte MAC and the simplified expiry
marker (0 = free). -/
structure DhcpLease where
  mac : List Nat
  expiry : Nat
  deriving Repr, DecidableEq

/-- The scanning loop of `dhcp_find_ip`: returns the current index on a
MAC match, otherwise remembers the first free slot (expiry 0) in the
accumulator and recurses. -/
def dhcp_find_ip_go (mac : List Nat) : List DhcpLease → Nat → Option Nat → Option Nat
  | [], _, empty => empty
  | l :: rest, i, empty =>
    if l.mac = mac then some i
    else dhcp_find_ip_go mac rest (i + 1)
      (if empty.isNone ∧ l.expiry = 0 then some i else empty)

/-- `dhcp_find_ip` from dhcpserver.c: index of an existing lease for the
MAC, else the first slot with expiry 0, else `none`. -/
def dhcp_find_ip (leases : List DhcpLease) (mac : List Nat) : Option Nat :=
  dhcp_find_ip_go mac leases 0 none

/-- Specification-side helper: the lowest index of a lease entry whose
stored MAC equals the given MAC. -/
def firstMatchIdx (mac : List Nat) : List DhcpLease → Option Nat
  | [] => none
  | l :: rest =>
    if l.mac = mac then some 0 else (firstMatchIdx mac rest).map (· + 1)

/-- Specification-side helper: the lowest index of a lease entry whose
expiry field is 0. -/
def firstFreeIdx : List DhcpLease → Option Nat
  | [] => none
  | l :: rest =>
    if l.expiry = 0 then some 0 else (firstFreeIdx rest).map (· + 1)

/-- Result of the DHCP option-scanning loop in `dhcp_recv_cb`: the last
message-type and requested-IP option values seen, plus whether the loop
ever read a byte beyond the end of the buffer. -/
structure ScanResult where
  msgType : Nat
  requestedIp : List Nat
  oob : Bool
  deriving Repr, DecidableEq

/-- The option-scanning loop of `dhcp_recv_cb` (dhcpserver.c lines
124-145), over the option bytes that are actually inside the datagram.
Walks until an END code (255) or the buffer boundary; code 0 is a
single padding byte.  Otherwise the loop consumes a code byte and then
a length byte; the length byte is read without any bounds check, so
when the code byte is the last byte of the buffer the read is out of
bounds (recorded in `oob`; the loop then breaks, since the subsequent
check `opt + opt_len > opt_end` always fails it out, and the garbage
value never reaches the result).  An option whose value would run past
the buffer terminates the loop. -/
def scanOptionsGo : List Nat → Nat → List Nat → ScanResult
  | [], mt, rip => ⟨mt, rip, false⟩
  | c :: rest, mt, rip =>
    if c = 255 then ⟨mt, rip, false⟩
    else if c = 0 then scanOptionsGo rest mt rip
    else
      match rest with
      | [] => ⟨mt, rip, true⟩
      | l :: rest2 =>
        if rest2.length < l then ⟨mt, rip, false⟩
        else
          scanOptionsGo (rest2.drop l)
            (if c = 53 ∧ 1 ≤ l then rest2.headD 0 else mt)
            (if c = 50 ∧ 4 ≤ l then rest2.take 4 else rip)
  termination_by opts _ _ => opts.length
  decreasing_by
    all_goals try simp_wf
    all_goals omega

/-- The DHCP option scan with the initial state of `dhcp_recv_cb`:
message type 0 and requested IP 0. -/
def scanOptions (opts : List Nat) : ScanResult :=
  scanOptionsGo opts 0 [0, 0, 0, 0]

/-- The DHCP magic cookie. -/
def DHCP_MAGIC : Nat := 0x63825363

/-- The wire bytes of htonl(DHCPS_LEASE_TIME), DHCPS_LEASE_TIME being
24 * 60 * 60 = 86400 = 0x00015180. -/
def DHCPS_LEASE_TIME_BYTES : List Nat := [0, 1, 81, 128]

/-- The DHCP server configuration (`dhcp_server_t`): own IP address and
netmask, each as 4 wire-order bytes. -/
structure DhcpServerCfg where
  ipBytes : List Nat
  nmBytes : List Nat
  deriving Repr, DecidableEq

/-- An inbound DHCP datagram as `dhcp_recv_cb` sees it through the
packed `dhcp_msg_t` overlay: the raw datagram length, the fixed header
fields the code inspects, the 16-byte `chaddr`, the magic cookie, and
the option bytes present in the datagram (offsets 240 and up). -/
structure DhcpMsg where
  payloadLen : Nat
  op : Nat
  htype : Nat
  hlen : Nat
  xid : Nat
  chaddr : List Nat
  magic : Nat
  options : List Nat
  deriving Repr, DecidableEq

/-- The reply datagram `dhcp_recv_cb` builds and sends, with its UDP
destination. -/
structure DhcpReply where
  op : Nat
  htype : Nat
  hlen : Nat
  xid : Nat
  yiaddr : List Nat
  siaddr : List Nat
  chaddr : List Nat
  magic : Nat
  optionsOut : List Nat
  destIp : List Nat
  destPort : Nat
  deriving Repr, DecidableEq

/-- `dhcp_add_option` from dhcpserver.c: appends a code byte, a length
byte and `len` value bytes. -/
def dhcp_add_option (buf : List Nat) (code len : Nat) (data : List Nat) : List Nat :=
  buf ++ code :: len :: data.take len

/-- `dhcp_recv_cb` from dhcpserver.c: validates the datagram (minimum
header length 240, op 1, htype 1, hlen 6, magic cookie), scans the
options for the message type, drops anything that is not DISCOVER (1)
or REQUEST (3), allocates a lease, and on success builds the reply
(OFFER 2 for DISCOVER, ACK 5 for REQUEST) with the fixed option order,
recording the lease on ACK; the reply goes to 255.255.255.255 on the
DHCP client port 68.  Returns the new lease table and the reply sent,
if any. -/
def dhcp_recv_cb (d : DhcpServerCfg) (leases : List DhcpLease) (msg : DhcpMsg) :
    List DhcpLease × Option DhcpReply :=
  if msg.payloadLen < 240 then (leases, none)
  else if ¬ (msg.op = 1 ∧ msg.htype = 1 ∧ msg.hlen = 6) then (leases, none)
  else if msg.magic ≠ DHCP_MAGIC then (leases, none)
  else
    let scan := scanOptions msg.options
    if scan.msgType ≠ 1 ∧ scan.msgType ≠ 3 then (leases, none)
    else
      match dhcp_find_ip leases (msg.chaddr.take 6) with
      | none => (leases, none)
      | some i =>
        let clientIp := [d.ipBytes.getD 0 0, d.ipBytes.getD 1 0,
                         d.ipBytes.getD 2 0, (100 + i) % 256]
        let replyType := if scan.msgType = 1 then 2 else 5
        let opts0 := dhcp_add_option [] 53 1 [replyType]
        let opts1 := dhcp_add_option opts0 54 4 d.ipBytes
        let opts2 := dhcp_add_option opts1 51 4 DHCPS_LEASE_TIME_BYTES
        let opts3 := dhcp_add_option opts2 1 4 d.nmBytes
        let opts4 := dhcp_add_option opts3 3 4 d.ipBytes
        let opts5 := dhcp_add_option opts4 6 4 d.ipBytes
        let newLeases :=
          if replyType = 5 then leases.set i ⟨msg.chaddr.take 6, 1⟩ else leases
        (newLeases,
         some { op := 2, htype := 1, hlen := 6, xid := msg.xid,
                yiaddr := clientIp, siaddr := d.ipBytes, chaddr := msg.chaddr,
                magic := DHCP_MAGIC, optionsOut := opts5 ++ [255],
                destIp := [255, 255, 255, 255], destPort := 68 })

/-! ## WiFi connection manager (src/firmware/src/network.c,
src/firmware/src/main.c) -/

/-- `network_state_t` from network.h. -/
inductive NetworkState where
  | disconnected
  | connecting
  | connected
  | listening
  | error
  deriving Repr, DecidableEq

/-- `wifi_fail_reason_t` from network.h. -/
inductive WifiFailReason where
  | noFail
  | timeout
  | nonet
  | badauth
  | general
  deriving Repr, DecidableEq

/-- Outcome of the polling loop of `network_connect_wifi`: the network
state and failure reason it leaves behind, whether `cyw43_wifi_leave`
was called before returning, and the boolean return value. -/
structure ConnectResult where
  state : NetworkState
  fail : WifiFailReason
  leaveCalled : Bool
  ret : Bool
  deriving Repr, DecidableEq

/-- The bounded polling loop of `network_connect_wifi` (network.c lines
283-346), entered with state Connecting and failure reason cleared.
The argument lists the link statuses observed at successive
iterations before the timeout; running out of the list is the timeout.
Status 3 is CYW43_LINK_UP, -1 CYW43_LINK_FAIL, -2 CYW43_LINK_NONET,
-3 CYW43_LINK_BADAUTH; every other status keeps polling. -/
def network_connect_wifi_poll : List Int → ConnectResult
  | [] => ⟨.error, .timeout, true, false⟩
  | s :: rest =>
    if s = 3 then ⟨.connected, .noFail, false, true⟩
    else if s = -2 then ⟨.error, .nonet, true, false⟩
    else if s = -3 then ⟨.error, .badauth, true, false⟩
    else if s = -1 then ⟨.error, .general, true, false⟩
    else network_connect_wifi_poll rest

/-- A link status on which the polling loop terminates. -/
def isTerminalStatus (s : Int) : Bool :=
  s == 3 || s == -2 || s == -3 || s == -1

/-- The result a single `network_connect_wifi` call reports to the
caller: success, or failure with the reason left in
`wifi_fail_reason`. -/
inductive AttemptOutcome where
  | success
  | fail (r : WifiFailReason)
  deriving Repr, DecidableEq

/-- How the startup WiFi retry loop of `main` ends: connected, stuck
forever in `error_loop(8)` after a bad password, or out of retries. -/
inductive StartupOutcome where
  | connected
  | haltedBadAuth
  | gaveUp
  deriving Repr, DecidableEq

/-- A run of the startup retry loop: its final outcome, the number of
connection attempts issued, and the number of inter-attempt delays
slept. -/
structure StartupRun where
  outcome : StartupOutcome
  attempts : Nat
  delays : Nat
  deriving Repr, DecidableEq

/-- The startup retry loop of `main` (main.c lines 252-297), with
WIFI_MAX_RETRIES = 3: each attempt calls `network_connect_wifi`
(outcome `f used` for the attempt numbered `used + 1`); success breaks
out, a BadAuth failure enters the never-returning `error_loop(8)`, any
other failure sleeps the fixed retry delay (only while further
attempts remain) and retries. -/
def startup_wifi_go (f : Nat → AttemptOutcome) : Nat → Nat → Nat → StartupRun
  | 0, used, delays => ⟨.gaveUp, used, delays⟩
  | fuel + 1, used, delays =>
    match f used with
    | .success => ⟨.connected, used + 1, delays⟩
    | .fail .badauth => ⟨.haltedBadAuth, used + 1, delays⟩
    | .fail _ =>
        startup_wifi_go f fuel (used + 1)
          (if used + 1 < 3 then delays + 1 else delays)

/-- The startup retry loop entered from the top: 3 attempts at most. -/
def startup_wifi_retry (f : Nat → AttemptOutcome) : StartupRun :=
  startup_wifi_go f 3 0 0

/-- One WiFi-check tick of the main loop (main.c lines 414-446), taken
when the check interval has elapsed: state is (wifi_is_connected, the
last failure reason); when connected and the link is still alive
nothing happens, otherwise `network_connect_wifi` is called — with no
inspection of the previous failure reason.  Returns the new state and
the number of connection attempts issued (0 or 1). -/
def wifi_check_tick : Bool × WifiFailReason → Bool → AttemptOutcome →
    (Bool × WifiFailReason) × Nat
  | (conn, lf), linkAlive, o =>
    if conn ∧ linkAlive then ((conn, lf), 0)
    else
      match o with
      | .success => ((true, .noFail), 1)
      | .fail r => ((false, r), 1)

/-! ## Telemetry destination selection and discovery
(src/firmware/src/network.c) -/

/-- The subnet broadcast address computed by `network_send_telemetry`:
the interface address or-ed with the complement of the netmask (both
32-bit values). -/
def subnet_broadcast (ip nm : Nat) : Nat :=
  Nat.lor ip (Nat.xor nm 4294967295)

/-- `network_send_telemetry` from network.c (reached with the telemetry
socket bound and state Listening): clears the discovered-dashboard
record if the last discovery is older than DISCOVERY_TIMEOUT_MS
(30000 ms, compared in microseconds); then sends the status payload to
the dashboard address when one is (still) discovered, otherwise to the
subnet broadcast address (when a default interface exists) and to the
global broadcast 255.255.255.255.  Returns the updated discovered flag
and the list of (destination, payload) sends. -/
def network_send_telemetry (discovered : Bool) (dashboardAddr : Nat)
    (lastDiscoveryUs nowUs : Int) (netif : Option (Nat × Nat))
    (payload : String) : Bool × List (Nat × String) :=
  let discovered' :=
    if discovered ∧ nowUs - lastDiscoveryUs > 30000000 then false
    else discovered
  if discovered' then (discovered', [(dashboardAddr, payload)])
  else
    (discovered',
     (match netif with
      | some (ip, nm) => [(subnet_broadcast ip nm, payload)]
      | none => []) ++ [(4294967295, payload)])

/-- Substring search of `json_contains` in network.c: a match of the
pattern at any position of the payload. -/
def json_pattern_search (hay pat : List Char) : Bool :=
  if pat.isPrefixOf hay then true
  else
    match hay with
    | [] => false
    | _ :: t => json_pattern_search t pat

/-- `json_contains(payload, len, "type", "discovery")` as invoked by
`udp_telemetry_callback`: searches for the two patterns built by
snprintf, with and without a space after the colon. -/
def json_contains_type_discovery (payload : List Char) : Bool :=
  json_pattern_search payload ("\"type\":\"discovery\"".toList) ||
  json_pattern_search payload ("\"type\": \"discovery\"".toList)

/-- The dashboard-discovery state of network.c plus the discovery
counter. -/
structure DiscoveryState where
  discovered : Bool
  dashboardAddr : Nat
  lastDiscoveryUs : Int
  discoveryCount : Nat
  deriving Repr, DecidableEq

/-- `udp_telemetry_callback` from network.c (non-null pbuf and source
address): only for payload lengths 1 through 255 does it look for the
discovery marker, and on a match records the sender as the dashboard,
refreshes the timestamp and bumps the discovery counter; otherwise the
state is untouched. -/
def udp_telemetry_callback (st : DiscoveryState) (srcAddr : Nat)
    (nowUs : Int) (payload : List Char) : DiscoveryState :=
  if 0 < payload.length ∧ payload.length < 256 then
    if json_contains_type_discovery payload then
      ⟨true, srcAddr, nowUs, st.discoveryCount + 1⟩
    else st
  else st

/-! ## Theorems -/

/-- C1: the StageKit decoder succeeds iff the buffer has at least 10
bytes, starts with the ASCII bytes of RB3E, and has the StageKit event
code 6 at offset 5; on success it returns exactly the bytes at offsets
8 and 9, and in every other case it returns `none`. -/
theorem rb3e_parse_stagekit_characterization (data : List Nat) :
    rb3e_parse_stagekit data =
      if 10 ≤ data.length ∧ data.getD 0 0 = 82 ∧ data.getD 1 0 = 66 ∧
         data.getD 2 0 = 51 ∧ data.getD 3 0 = 69 ∧ data.getD 5 0 = 6
      then some (data.getD 8 0, data.getD 9 0)
      else none := by
  unfold rb3e_parse_stagekit rb3e_check_magic
  rcases Nat.lt_or_ge data.length 10 with h | h
  · simp [h, Nat.not_le.mpr h]
  · simp only [Nat.not_lt.mpr h, if_false]
    by_cases h0 : data.getD 0 0 = 82 <;>
    by_cases h1 : data.getD 1 0 = 66 <;>
    by_cases h2 : data.getD 2 0 = 51 <;>
    by_cases h3 : data.getD 3 0 = 69 <;>
    by_cases h5 : data.getD 5 0 = 6 <;>
      simp_all

/-- C2 counterexample: a 5-byte datagram delivered to the command
endpoint with a callback registered increments `packets_received` but
increments neither `packets_processed` nor `packets_invalid`, refuting
the claim that every non-decodable datagram increments
`packets_invalid`. -/
theorem udp_stagekit_callback_short_no_invalid :
    udp_stagekit_callback true [0, 0, 0, 0, 0] ⟨0, 0, 0, 0, 0⟩ =
      (⟨1, 0, 0, 0, 0⟩, none) := by
  decide

/-- C2 amended: every delivered datagram increments `packets_received`
by exactly one; when a command callback is registered and the payload
has at least 10 bytes, a successful decode increments
`packets_processed` and invokes the callback with the decoded pair,
and a failed decode increments `packets_invalid`; datagrams shorter
than 10 bytes (or arriving with no callback registered) change no
counter other than `packets_received` and invoke no callback. -/
theorem udp_stagekit_callback_behaviour (cbSet : Bool) (payload : List Nat)
    (s : NetStats) :
    (udp_stagekit_callback cbSet payload s).1.packets_received
        = s.packets_received + 1 ∧
    (udp_stagekit_callback cbSet payload s).1.packets_processed
        = (if cbSet = true ∧ 10 ≤ payload.length ∧
              (rb3e_parse_stagekit payload).isSome
           then s.packets_processed + 1 else s.packets_processed) ∧
    (udp_stagekit_callback cbSet payload s).1.packets_invalid
        = (if cbSet = true ∧ 10 ≤ payload.length ∧
              (rb3e_parse_stagekit payload).isNone
           then s.packets_invalid + 1 else s.packets_invalid) ∧
    (udp_stagekit_callback cbSet payload s).2
        = (if cbSet = true ∧ 10 ≤ payload.length
           then rb3e_parse_stagekit payload else none) := by
  unfold udp_stagekit_callback
  by_cases hcb : cbSet = true <;>
  by_cases hlen : 10 ≤ payload.length
  · rcases hp : rb3e_parse_stagekit payload with _ | ⟨l, r⟩ <;>
      simp [hcb, hlen, hp]
  · rcases hp : rb3e_parse_stagekit payload with _ | ⟨l, r⟩ <;>
      simp [hcb, hlen, hp]
  all_goals simp [hcb, hlen]

/-- Helper for the allocator characterization: the scanning loop of
`dhcp_find_ip` returns the lowest MAC match if one exists, otherwise
the remembered free slot or the lowest free slot it finds. -/
theorem dhcp_find_ip_go_spec (mac : List Nat) (ls : List DhcpLease) :
    ∀ (i : Nat) (empty : Option Nat),
      dhcp_find_ip_go mac ls i empty =
        match firstMatchIdx mac ls with
        | some j => some (i + j)
        | none => empty.or ((firstFreeIdx ls).map (i + ·)) := by
  induction ls with
  | nil => intro i empty; rcases empty with _ | e <;>
      simp [dhcp_find_ip_go, firstMatchIdx, firstFreeIdx, Option.or]
  | cons l rest ih =>
    intro i empty
    by_cases hm : l.mac = mac
    · simp [dhcp_find_ip_go, firstMatchIdx, hm]
    · rcases hfm : firstMatchIdx mac rest with _ | j
      · rcases hff : firstFreeIdx rest with _ | k <;>
          rcases empty with _ | e <;> by_cases he : l.expiry = 0
        all_goals simp [dhcp_find_ip_go, firstMatchIdx, firstFreeIdx, hm, hfm,
          hff, he, ih, Option.or]
        all_goals omega
      · rcases empty with _ | e
        all_goals simp [dhcp_find_ip_go, firstMatchIdx, hm, hfm, ih, Option.or]
        all_goals omega

/-- C4 counterexample: on a freshly cleared 5-slot table,
`dhcp_find_ip` tentatively returns index 0 for MAC 01:02:03:04:05:06;
after another client's ACK records MAC 07:08:09:0a:0b:0c in slot 0
(the server's own lease update), a repeated call for the first MAC
returns index 1 although slot 0 was never cleared (its expiry is
nonzero), refuting the claimed index stability. -/
theorem dhcp_find_ip_index_not_stable :
    dhcp_find_ip (List.replicate 5 ⟨List.replicate 6 0, 0⟩) [1, 2, 3, 4, 5, 6]
        = some 0 ∧
    dhcp_find_ip ((List.replicate 5 ⟨List.replicate 6 0, 0⟩).set 0
        ⟨[7, 8, 9, 10, 11, 12], 1⟩) [1, 2, 3, 4, 5, 6] = some 1 ∧
    (((List.replicate 5 (⟨List.replicate 6 0, 0⟩ : DhcpLease)).set 0
        ⟨[7, 8, 9, 10, 11, 12], 1⟩).getD 0 ⟨[], 0⟩).expiry ≠ 0 := by
  decide

/-- C4 amended: `dhcp_find_ip` returns the lowest index whose stored
MAC equals the given MAC when one exists, otherwise the lowest index
whose expiry field is 0, otherwise `none`; hence a MAC recorded in the
table keeps resolving to the same (lowest matching) index until that
entry is cleared or overwritten, and a table with neither a matching
nor a free slot (in particular a full 5-slot pool facing a 6th
distinct MAC) yields `none`. -/
theorem dhcp_find_ip_characterization (leases : List DhcpLease) (mac : List Nat) :
    dhcp_find_ip leases mac = (firstMatchIdx mac leases).or (firstFreeIdx leases) := by
  rw [dhcp_find_ip, dhcp_find_ip_go_spec]
  rcases firstMatchIdx mac leases with _ | j
  · rcases firstFreeIdx leases with _ | k <;> simp [Option.or]
  · simp

/-- C9: on an options buffer whose single byte is the message-type
option code 0x35 (a 241-byte DHCP datagram truncated after the code
byte), the option-scanning loop of `dhcp_recv_cb` reads the option
length byte one position past the end of the buffer, before any bounds
check. -/
theorem scanOptions_truncated_code_reads_oob :
    (scanOptions [53]).oob = true := by
  simp [scanOptions, scanOptionsGo]

/-- C8: every received DHCP datagram that is malformed (shorter than
the 240-byte fixed header, op not 1, htype not 1, hlen not 6, wrong
magic cookie, or message type other than DISCOVER or REQUEST) or whose
lease allocation fails is dropped: no reply of any kind is sent and
the lease table is unchanged. -/
theorem dhcp_recv_cb_drops_invalid (d : DhcpServerCfg) (leases : List DhcpLease)
    (msg : DhcpMsg)
    (h : msg.payloadLen < 240 ∨ ¬(msg.op = 1 ∧ msg.htype = 1 ∧ msg.hlen = 6) ∨
         msg.magic ≠ DHCP_MAGIC ∨
         ((scanOptions msg.options).msgType ≠ 1 ∧
          (scanOptions msg.options).msgType ≠ 3) ∨
         dhcp_find_ip leases (msg.chaddr.take 6) = none) :
    dhcp_recv_cb d leases msg = (leases, none) := by
  unfold dhcp_recv_cb
  split_ifs with hA hB hC
  all_goals try rfl
  have h45 : (((scanOptions msg.options).msgType ≠ 1 ∧
      (scanOptions msg.options).msgType ≠ 3) ∨
      dhcp_find_ip leases (msg.chaddr.take 6) = none) := by tauto
  rcases h45 with ⟨ha, hb⟩ | h45
  · simp [ha, hb]
  · simp [h45]

/-- C8 witness: a 10-byte datagram (shorter than the DHCP fixed
header) is dropped with no reply and an unchanged lease table. -/
theorem dhcp_recv_cb_drops_invalid_witness :
    dhcp_recv_cb ⟨[192, 168, 4, 1], [255, 255, 255, 0]⟩ []
        ⟨10, 1, 1, 6, 0, [], 0, []⟩ = ([], none) :=
  dhcp_recv_cb_drops_invalid _ _ _ (Or.inl (by decide))

/-- C3: a validated DHCP datagram carrying DISCOVER (1) or REQUEST (3)
whose lease allocation succeeds at index i produces a reply with op 2,
the request's xid, yiaddr made of the server's first three address
octets followed by 100 + i, siaddr the server's own address, the
request's chaddr echoed, and options appended in the fixed order
message-type (OFFER 2 for DISCOVER, ACK 5 for REQUEST), server
identifier, lease time, subnet mask, router, DNS, end; the reply is
sent to 255.255.255.255 on the DHCP client port 68, and on an ACK the
lease entry records the client MAC and is marked in-use. -/
theorem dhcp_recv_cb_valid_reply (d : DhcpServerCfg) (leases : List DhcpLease)
    (msg : DhcpMsg) (i : Nat)
    (h1 : 240 ≤ msg.payloadLen)
    (h2 : msg.op = 1) (h3 : msg.htype = 1) (h4 : msg.hlen = 6)
    (h5 : msg.magic = DHCP_MAGIC)
    (h6 : (scanOptions msg.options).msgType = 1 ∨
          (scanOptions msg.options).msgType = 3)
    (h7 : dhcp_find_ip leases (msg.chaddr.take 6) = some i) :
    dhcp_recv_cb d leases msg =
      ((if (scanOptions msg.options).msgType = 1 then leases
        else leases.set i ⟨msg.chaddr.take 6, 1⟩),
       some { op := 2, htype := 1, hlen := 6, xid := msg.xid,
              yiaddr := [d.ipBytes.getD 0 0, d.ipBytes.getD 1 0,
                         d.ipBytes.getD 2 0, (100 + i) % 256],
              siaddr := d.ipBytes, chaddr := msg.chaddr, magic := DHCP_MAGIC,
              optionsOut := [53, 1,
                  if (scanOptions msg.options).msgType = 1 then 2 else 5,
                  54, 4] ++ d.ipBytes.take 4 ++
                  [51, 4, 0, 1, 81, 128, 1, 4] ++ d.nmBytes.take 4 ++
                  [3, 4] ++ d.ipBytes.take 4 ++ [6, 4] ++ d.ipBytes.take 4 ++
                  [255],
              destIp := [255, 255, 255, 255], destPort := 68 }) := by
  rcases h6 with h6 | h6 <;>
    simp [dhcp_recv_cb, h2, h3, h4, h5, h6, h7, dhcp_add_option,
      DHCPS_LEASE_TIME_BYTES, Nat.not_lt.mpr h1]

/-- C3 witness: a well-formed REQUEST from MAC aa:bb:cc:dd:ee:ff on a
fresh 5-slot table gets an ACK for 192.168.4.100, the fixed option
order, broadcast destination, and the lease recorded at slot 0. -/
theorem dhcp_recv_cb_valid_reply_witness :
    dhcp_recv_cb ⟨[192, 168, 4, 1], [255, 255, 255, 0]⟩
        (List.replicate 5 ⟨List.replicate 6 0, 0⟩)
        ⟨244, 1, 1, 6, 42,
         [170, 187, 204, 221, 238, 255, 0, 0, 0, 0, 0, 0, 0, 0, 0, 0],
         DHCP_MAGIC, [53, 1, 3, 255]⟩ =
      ((List.replicate 5 (⟨List.replicate 6 0, 0⟩ : DhcpLease)).set 0
          ⟨[170, 187, 204, 221, 238, 255], 1⟩,
       some { op := 2, htype := 1, hlen := 6, xid := 42,
              yiaddr := [192, 168, 4, 100], siaddr := [192, 168, 4, 1],
              chaddr := [170, 187, 204, 221, 238, 255, 0, 0, 0, 0, 0, 0, 0, 0, 0, 0],
              magic := DHCP_MAGIC,
              optionsOut := [53, 1, 5, 54, 4, 192, 168, 4, 1, 51, 4, 0, 1, 81, 128,
                             1, 4, 255, 255, 255, 0, 3, 4, 192, 168, 4, 1,
                             6, 4, 192, 168, 4, 1, 255],
              destIp := [255, 255, 255, 255], destPort := 68 }) := by
  have hscan : (scanOptions [53, 1, 3, 255]).msgType = 3 := by
    simp [scanOptions, scanOptionsGo]
  rw [dhcp_recv_cb_valid_reply _ _ _ 0 (by decide) rfl rfl rfl rfl
    (Or.inr hscan) (by decide)]
  simp [hscan]

/-- C5: the polling loop of `network_connect_wifi` is determined by the
first terminal link status it observes: link up (3) gives state
Connected with the failure reason cleared and no driver cleanup;
network not found (-2) gives Error with reason NoNetwork; bad
authentication (-3) gives Error with reason BadAuth; general failure
(-1) gives Error with reason General; and exhausting the loop without
a terminal status gives Error with reason Timeout; in every failure
case `cyw43_wifi_leave` is called before returning. -/
theorem network_connect_wifi_poll_outcomes (statuses : List Int) :
    network_connect_wifi_poll statuses =
      match statuses.find? isTerminalStatus with
      | none => ⟨.error, .timeout, true, false⟩
      | some s =>
        if s = 3 then ⟨.connected, .noFail, false, true⟩
        else if s = -2 then ⟨.error, .nonet, true, false⟩
        else if s = -3 then ⟨.error, .badauth, true, false⟩
        else ⟨.error, .general, true, false⟩ := by
  induction statuses with
  | nil => rfl
  | cons s rest ih =>
    by_cases ht : isTerminalStatus s = true
    · rw [List.find?_cons_of_pos _ ht]
      simp only [isTerminalStatus, Bool.or_eq_true, beq_iff_eq] at ht
      rcases ht with ((h | h) | h) | h <;> subst h <;>
        norm_num [network_connect_wifi_poll]
    · rw [List.find?_cons_of_neg _ ht]
      simp only [isTerminalStatus, Bool.or_eq_true, beq_iff_eq, not_or] at ht
      rw [network_connect_wifi_poll, if_neg ht.1.1.1, if_neg ht.1.1.2,
        if_neg ht.1.2, if_neg ht.2, ih]

/-- Helper: a failed attempt with a retryable (non-BadAuth) reason
makes the startup retry loop sleep the retry delay (while attempts
remain) and go around again. -/
theorem startup_wifi_go_retry_step (f : Nat → AttemptOutcome)
    (fuel used delays : Nat) (r : WifiFailReason)
    (hr : r ≠ WifiFailReason.badauth) (hf : f used = .fail r) :
    startup_wifi_go f (fuel + 1) used delays =
      startup_wifi_go f fuel (used + 1)
        (if used + 1 < 3 then delays + 1 else delays) := by
  rcases r <;>
    first
      | exact absurd rfl hr
      | simp [startup_wifi_go, hf]

/-- Helper: the startup retry loop issues at most `used + fuel`
connection attempts. -/
theorem startup_wifi_go_attempts_le (f : Nat → AttemptOutcome) :
    ∀ (fuel used delays : Nat),
      (startup_wifi_go f fuel used delays).attempts ≤ used + fuel := by
  intro fuel
  induction fuel with
  | zero => intro used delays; simp [startup_wifi_go]
  | succ n ih =>
    intro used delays
    rcases h : f used with _ | r
    · have heq : startup_wifi_go f (n + 1) used delays
          = ⟨.connected, used + 1, delays⟩ := by
        simp [startup_wifi_go, h]
      rw [heq]
      show used + 1 ≤ used + (n + 1)
      omega
    · cases r
      case badauth =>
        have heq : startup_wifi_go f (n + 1) used delays
            = ⟨.haltedBadAuth, used + 1, delays⟩ := by
          simp [startup_wifi_go, h]
        rw [heq]
        show used + 1 ≤ used + (n + 1)
        omega
      all_goals
        rw [startup_wifi_go_retry_step f n used delays _ (by decide) h]
      all_goals
        exact le_trans (ih (used + 1) _) (by omega)

/-- C6 counterexample: in the main loop's periodic WiFi check, a
connection attempt that fails with BadAuth leaves the state
disconnected with reason BadAuth, and the very next check tick issues
another automatic connection attempt — refuting the claim that after a
BadAuth failure no further automatic attempt is ever issued. -/
theorem wifi_check_tick_retries_after_badauth :
    (wifi_check_tick (false, .noFail) false (.fail .badauth)).1
        = (false, .badauth) ∧
    (wifi_check_tick (false, .badauth) false (.fail .badauth)).2 = 1 := by
  decide

/-- C6 amended: the startup retry loop issues at most
WIFI_MAX_RETRIES = 3 attempts; a BadAuth failure at any attempt of the
startup loop (reached after retryable failures at the earlier
attempts) halts the firmware in an error loop after exactly that
attempt, with no further attempts and no further retry delay;
retryable failures (NoNetwork, Timeout, General) are retried with the
fixed inter-attempt delay until the 3 attempts are exhausted.  The
periodic background WiFi check of the main loop, however, issues an
attempt whenever WiFi is down regardless of the previous failure
reason, including BadAuth. -/
theorem startup_retry_policy (f : Nat → AttemptOutcome) :
    (startup_wifi_retry f).attempts ≤ 3 ∧
    (∀ k, k < 3 → f k = .fail .badauth →
      (∀ j, j < k → ∃ r, r ≠ WifiFailReason.badauth ∧ f j = .fail r) →
      startup_wifi_retry f = ⟨.haltedBadAuth, k + 1, k⟩) ∧
    ((∀ k, k < 3 → ∃ r, r ≠ WifiFailReason.badauth ∧ f k = .fail r) →
      startup_wifi_retry f = ⟨.gaveUp, 3, 2⟩) ∧
    (∀ (lf : WifiFailReason) (linkAlive : Bool) (o : AttemptOutcome),
      (wifi_check_tick (false, lf) linkAlive o).2 = 1) := by
  refine ⟨?_, ?_, ?_, ?_⟩
  · exact startup_wifi_go_attempts_le f 3 0 0
  · intro k hk hbad hprev
    interval_cases k
    · simp [startup_wifi_retry, startup_wifi_go, hbad]
    · obtain ⟨r0, hr0, hf0⟩ := hprev 0 (by omega)
      rw [startup_wifi_retry, startup_wifi_go_retry_step f 2 0 0 r0 hr0 hf0]
      norm_num [startup_wifi_go, hbad]
    · obtain ⟨r0, hr0, hf0⟩ := hprev 0 (by omega)
      obtain ⟨r1, hr1, hf1⟩ := hprev 1 (by omega)
      rw [startup_wifi_retry,
        startup_wifi_go_retry_step f 2 0 0 r0 hr0 hf0,
        startup_wifi_go_retry_step f 1 1 _ r1 hr1 hf1]
      norm_num [startup_wifi_go, hbad]
  · intro h
    obtain ⟨r0, hr0, hf0⟩ := h 0 (by omega)
    obtain ⟨r1, hr1, hf1⟩ := h 1 (by omega)
    obtain ⟨r2, hr2, hf2⟩ := h 2 (by omega)
    rw [startup_wifi_retry,
      startup_wifi_go_retry_step f 2 0 0 r0 hr0 hf0,
      startup_wifi_go_retry_step f 1 1 _ r1 hr1 hf1,
      startup_wifi_go_retry_step f 0 2 _ r2 hr2 hf2]
    norm_num [startup_wifi_go]
  · intro lf linkAlive o
    rcases o with _ | r <;> simp [wifi_check_tick]

/-- C6 witness: three NoNetwork failures exhaust the 3 startup attempts
with 2 inter-attempt delays, and a BadAuth failure on the second
attempt (after a first-attempt NoNetwork failure) halts after exactly
2 attempts and the single delay already slept. -/
theorem startup_retry_policy_witness :
    startup_wifi_retry (fun _ => .fail .nonet) = ⟨.gaveUp, 3, 2⟩ ∧
    startup_wifi_retry (fun n => if n = 0 then .fail .nonet else .fail .badauth)
      = ⟨.haltedBadAuth, 2, 1⟩ := by
  constructor
  · exact (startup_retry_policy (fun _ => .fail .nonet)).2.2.1
      (fun _ _ => ⟨.nonet, by decide, rfl⟩)
  · refine (startup_retry_policy _).2.1 1 (by omega) rfl ?_
    intro j hj
    interval_cases j
    exact ⟨.nonet, by decide, rfl⟩

/-- C7: a periodic telemetry send with a discovered dashboard whose
last discovery lies within the 30-second staleness window unicasts the
payload to the dashboard address; otherwise (clearing a stale record)
it sends the same payload to the subnet broadcast address and to the
limited-broadcast address 255.255.255.255. -/
theorem network_send_telemetry_destinations (discovered : Bool)
    (dash : Nat) (lastUs nowUs : Int) (ip nm : Nat) (payload : String) :
    (discovered = true → nowUs - lastUs ≤ 30000000 →
      network_send_telemetry discovered dash lastUs nowUs (some (ip, nm)) payload
        = (true, [(dash, payload)])) ∧
    (discovered = false ∨ 30000000 < nowUs - lastUs →
      network_send_telemetry discovered dash lastUs nowUs (some (ip, nm)) payload
        = (false, [(subnet_broadcast ip nm, payload),
                   (4294967295, payload)])) := by
  constructor
  · intro hd hf
    simp [network_send_telemetry, hd, Int.not_lt.mpr hf]
  · intro hd
    rcases hd with hd | hd
    · simp [network_send_telemetry, hd]
    · by_cases hdisc : discovered = true <;>
        simp [network_send_telemetry, hdisc, hd]

/-- C7 witness: with the dashboard at address 42 discovered 1000 us
ago the send unicasts to it; with the discovery 40000001 us old the
record is cleared and the send goes to the subnet broadcast of
192.168.1.2/24 (192.168.1.255) and to 255.255.255.255. -/
theorem network_send_telemetry_destinations_witness :
    network_send_telemetry true 42 0 1000 (some (3232235778, 4294967040)) "t"
        = (true, [(42, "t")]) ∧
    network_send_telemetry true 42 0 40000001 (some (3232235778, 4294967040)) "t"
        = (false, [(3232236031, "t"), (4294967295, "t")]) := by
  constructor
  · exact (network_send_telemetry_destinations true 42 0 1000
      3232235778 4294967040 "t").1 rfl (by decide)
  · rw [(network_send_telemetry_destinations true 42 0 40000001
      3232235778 4294967040 "t").2 (Or.inr (by decide))]
    decide

/-- C10: a datagram on the telemetry/discovery endpoint whose length
is 0 or at least 256 leaves the discovered-peer record, its timestamp
and the discovery counter unchanged, whatever the payload contains. -/
theorem udp_telemetry_callback_length_guard (st : DiscoveryState)
    (src : Nat) (now : Int) (payload : List Char)
    (h : payload.length = 0 ∨ 256 ≤ payload.length) :
    udp_telemetry_callback st src now payload = st := by
  rcases h with h | h
  · simp [udp_telemetry_callback, h]
  · simp [udp_telemetry_callback, Nat.not_lt.mpr h]

set_option maxRecDepth 20000 in
/-- C10 witness: a 256-byte payload that does contain the discovery
marker still leaves the discovery state untouched. -/
theorem udp_telemetry_callback_length_guard_witness :
    ("\"type\":\"discovery\"".toList ++ List.replicate 238 ' ').length = 256 ∧
    json_contains_type_discovery
        ("\"type\":\"discovery\"".toList ++ List.replicate 238 ' ') = true ∧
    udp_telemetry_callback ⟨false, 0, 0, 0⟩ 7 5
        ("\"type\":\"discovery\"".toList ++ List.replicate 238 ' ')
      = ⟨false, 0, 0, 0⟩ := by
  refine ⟨by decide, by decide, ?_⟩
  exact udp_telemetry_callback_length_guard _ _ _ _ (Or.inr (by decide))
